import Mathlib

/-!
Verification of the SQL security-policy core of the Dm-mcp repository
(`src/database.py`): the `SQLValidator` statement classifier and policy
engine, the `DamengDatabase.execute_query` read/write dispatch and
row-limit guard, and the `DamengDatabase._is_schema_allowed` schema
access resolver.

Python strings are modelled as Lean `String` (ASCII fragment: `upper`,
`strip`, `split`, substring `in`, and the `re` classes `\b`, `\s`, `\w`
are modelled for ASCII text, which is the alphabet of every SQL keyword
and pattern the code inspects).
-/

namespace DmMcp

/-- ASCII whitespace recognised by Python `str.strip()` / `str.split()` / `\s`. -/
def isSpaceChar (c : Char) : Bool :=
  c == ' ' || c == '\t' || c == '\n' || c == '\r' || c == '\x0b' || c == '\x0c'

/-- ASCII word character, the `re` class `\w` (and the sides of `\b`). -/
def isWordChar (c : Char) : Bool :=
  ('A' ≤ c && c ≤ 'Z') || ('a' ≤ c && c ≤ 'z') || ('0' ≤ c && c ≤ '9') || c == '_'

/-- Python `str.strip()` on a character list: drop leading and trailing whitespace. -/
def pyStrip (l : List Char) : List Char :=
  ((l.dropWhile isSpaceChar).reverse.dropWhile isSpaceChar).reverse

/-- `sql.upper().strip()`, the normalisation done by `validate_sql` and
`get_error_message` (src/database.py:41,111) before any inspection. -/
def normalizeSql (s : String) : String :=
  String.mk (pyStrip (s.data.map Char.toUpper))

/-- Helper for `pySplit`: accumulate the current word (reversed) while scanning. -/
def pySplitAux : List Char → List Char → List (List Char)
  | [], acc => if acc.isEmpty then [] else [acc.reverse]
  | c :: rest, acc =>
    if isSpaceChar c then
      if acc.isEmpty then pySplitAux rest [] else acc.reverse :: pySplitAux rest []
    else pySplitAux rest (c :: acc)

/-- Python `str.split()` with no argument: split on runs of whitespace,
discarding empty words. -/
def pySplit (l : List Char) : List (List Char) :=
  pySplitAux l []

/-- `SQLValidator._extract_first_keyword` (src/database.py:56-59):
`words = sql_upper.split(); return words[0] if words else ""`. -/
def extract_first_keyword (sql_upper : String) : String :=
  match pySplit sql_upper.data with
  | [] => ""
  | w :: _ => String.mk w

/-- `pat` is an initial segment of `l` (character-exact). -/
def startsWithChars : List Char → List Char → Bool
  | [], _ => true
  | _ :: _, [] => false
  | p :: ps, c :: cs => p == c && startsWithChars ps cs

/-- Python substring containment `pat in s` (character-exact, any position). -/
def containsSub (pat : List Char) : List Char → Bool
  | [] => startsWithChars pat []
  | c :: rest => startsWithChars pat (c :: rest) || containsSub pat rest

/-- Match a literal character sequence at the head, returning the remainder. -/
def matchLit : List Char → List Char → Option (List Char)
  | [], rest => some rest
  | _ :: _, [] => none
  | p :: ps, c :: cs => if p == c then matchLit ps cs else none

/-- Consume one-or-more characters satisfying `pred` (the regex `X+` for a
character class `X`); maximal munch, which is exact here because in every
pattern below the atom following `\s+` or `\w+` starts with a character of
the complementary class. -/
def dropClassPlus (pred : Char → Bool) : List Char → Option (List Char)
  | [] => none
  | c :: rest => if pred c then some (rest.dropWhile pred) else none

/-- The regex `\b` at the end of a keyword (the previous character is a word
character): succeeds at end of text or before a non-word character. -/
def endBoundary : List Char → Bool
  | [] => true
  | c :: _ => !(isWordChar c)

/-- Matcher for `\bW1\s+W2\b` at the current position (the left `\b` is
checked by the caller, `reSearch`). -/
def matchKwPair (w1 w2 : List Char) (l : List Char) : Bool :=
  match matchLit w1 l with
  | none => false
  | some r1 =>
    match dropClassPlus isSpaceChar r1 with
    | none => false
    | some r2 =>
      match matchLit w2 r2 with
      | none => false
      | some r3 => endBoundary r3

/-- Matcher for `\bUPDATE\s+\w+\s+SET\b` at the current position. -/
def matchUpdateSet (l : List Char) : Bool :=
  match matchLit "UPDATE".data l with
  | none => false
  | some r1 =>
    match dropClassPlus isSpaceChar r1 with
    | none => false
    | some r2 =>
      match dropClassPlus isWordChar r2 with
      | none => false
      | some r3 =>
        match dropClassPlus isSpaceChar r3 with
        | none => false
        | some r4 =>
          match matchLit "SET".data r4 with
          | none => false
          | some r5 => endBoundary r5

/-- `re.search`: try the matcher at every position; the left `\b` of each
pattern holds iff the preceding character (when any) is not a word character,
since every pattern starts with a word character. -/
def searchFrom (matchHere : List Char → Bool) : Option Char → List Char → Bool
  | prev, [] =>
    (match prev with | none => true | some c => !(isWordChar c)) && matchHere []
  | prev, c :: rest =>
    ((match prev with | none => true | some p => !(isWordChar p)) && matchHere (c :: rest))
      || searchFrom matchHere (some c) rest

def reSearch (matchHere : List Char → Bool) (l : List Char) : Bool :=
  searchFrom matchHere none l

/-- `SQLValidator.READONLY_OPERATIONS` (src/database.py:24-26). -/
def READONLY_OPERATIONS : List String :=
  ["SELECT", "WITH", "SHOW", "DESCRIBE", "EXPLAIN", "ANALYZE"]

/-- `SQLValidator.WRITE_OPERATIONS` (src/database.py:29-31). -/
def WRITE_OPERATIONS : List String :=
  ["INSERT", "UPDATE"]

/-- `SQLValidator.DANGEROUS_OPERATIONS` (src/database.py:34-36). -/
def DANGEROUS_OPERATIONS : List String :=
  ["DELETE", "DROP", "CREATE", "ALTER", "TRUNCATE", "GRANT", "REVOKE"]

/-- The `dangerous_patterns` regex scan of the SELECT branch of
`_validate_readonly` (src/database.py:70-83): true iff some of the seven
word-boundary phrase patterns matches somewhere in `sql_upper`. -/
def dangerousPatternFound (sql_upper : String) : Bool :=
  reSearch (matchKwPair "DROP".data "TABLE".data) sql_upper.data ||
  reSearch (matchKwPair "TRUNCATE".data "TABLE".data) sql_upper.data ||
  reSearch (matchKwPair "DELETE".data "FROM".data) sql_upper.data ||
  reSearch (matchKwPair "INSERT".data "INTO".data) sql_upper.data ||
  reSearch matchUpdateSet sql_upper.data ||
  reSearch (matchKwPair "CREATE".data "TABLE".data) sql_upper.data ||
  reSearch (matchKwPair "ALTER".data "TABLE".data) sql_upper.data

/-- The non-SELECT branch of `_validate_readonly` (src/database.py:85-89):
some keyword of `WRITE_OPERATIONS ∪ DANGEROUS_OPERATIONS` occurs as a plain
substring of `sql_upper` (Python `forbidden in sql_upper`). -/
def forbiddenReadonlySubstringFound (sql_upper : String) : Bool :=
  (WRITE_OPERATIONS ++ DANGEROUS_OPERATIONS).any
    (fun kw => containsSub kw.data sql_upper.data)

/-- The dangerous-keyword scan of `_validate_limited_write`
(src/database.py:102-104): some keyword of `DANGEROUS_OPERATIONS` occurs as a
plain substring of `sql_upper`. -/
def dangerousSubstringFound (sql_upper : String) : Bool :=
  DANGEROUS_OPERATIONS.any (fun kw => containsSub kw.data sql_upper.data)

/-- Modelled from the spec: `SecurityMode` is defined in `config.py`, which is
not among the sources; the spec (§3) fixes the three values ReadOnly,
LimitedWrite, FullAccess, matched in `validate_sql` (src/database.py:46-51). -/
inductive SecurityMode
  | readonly
  | limited_write
  | full_access
deriving DecidableEq

/-- `SQLValidator._validate_readonly` (src/database.py:62-91). -/
def _validate_readonly (first_keyword sql_upper : String) : Bool :=
  if first_keyword ∉ READONLY_OPERATIONS then false
  else if first_keyword = "SELECT" then !(dangerousPatternFound sql_upper)
  else !(forbiddenReadonlySubstringFound sql_upper)

/-- `SQLValidator._validate_limited_write` (src/database.py:94-106);
`allowed_operations = READONLY_OPERATIONS.union(WRITE_OPERATIONS)`. -/
def _validate_limited_write (first_keyword sql_upper : String) : Bool :=
  if first_keyword ∉ READONLY_OPERATIONS ++ WRITE_OPERATIONS then false
  else !(dangerousSubstringFound sql_upper)

/-- `SQLValidator.validate_sql` (src/database.py:39-53). -/
def validate_sql (sql : String) (security_mode : SecurityMode) : Bool :=
  let sql_upper := normalizeSql sql
  let first_keyword := extract_first_keyword sql_upper
  match security_mode with
  | .readonly => _validate_readonly first_keyword sql_upper
  | .limited_write => _validate_limited_write first_keyword sql_upper
  | .full_access => true

/-- `SQLValidator.get_error_message` (src/database.py:109-128). -/
def get_error_message (sql : String) (security_mode : SecurityMode) : String :=
  let sql_upper := normalizeSql sql
  let first_keyword := extract_first_keyword sql_upper
  match security_mode with
  | .readonly =>
    if first_keyword ∈ WRITE_OPERATIONS then
      "只读模式下禁止写入操作: " ++ first_keyword
    else if first_keyword ∈ DANGEROUS_OPERATIONS then
      "只读模式下禁止危险操作: " ++ first_keyword
    else
      "只读模式下不支持的操作: " ++ first_keyword
  | .limited_write =>
    if first_keyword ∈ DANGEROUS_OPERATIONS then
      "限制写入模式下禁止危险操作: " ++ first_keyword
    else
      "限制写入模式下不支持的操作: " ++ first_keyword
  | .full_access => "操作被安全策略禁止"

/-! ## Query executor (`DamengDatabase.execute_query`, src/database.py:175-219)

The database driver is external; a successful `cur.execute` is modelled by a
`CursorResult` holding what the executor then reads from the cursor:
`fetchall()` rows, the column `description` (possibly absent), and
`rowcount`. -/

/-- The cursor state the executor consumes after `cur.execute(sql, params)`. -/
structure CursorResult (α : Type) where
  rows : List (List α)
  description : Option (List String)
  rowcount : Int
deriving DecidableEq

/-- The executor's return value: either the list of column-keyed row mappings
(`dict(zip(columns, row))`, src/database.py:199-201) for the read path, or the
single `{"affected_rows": n, "status": "success"}` summary record of the
write path (src/database.py:215), reached after `conn.commit()`. -/
inductive ExecOutcome (α : Type)
  | resultRows (rs : List (List (String × α)))
  | writeSummary (affected_rows : Int)
deriving DecidableEq

/-- The tuple of `sql.upper().strip().startswith((...))` at
src/database.py:192 — note it has five members; `ANALYZE` is not one. -/
def QUERY_RESULT_KEYWORDS : List String :=
  ["SELECT", "WITH", "SHOW", "DESCRIBE", "EXPLAIN"]

/-- `sql.upper().strip().startswith(('SELECT','WITH','SHOW','DESCRIBE','EXPLAIN'))`
(src/database.py:192): prefix match, not first-token match. -/
def startsWithQueryKeyword (sql_upper : String) : Bool :=
  QUERY_RESULT_KEYWORDS.any (fun p => startsWithChars p.data sql_upper.data)

/-- `DamengDatabase.execute_query` (src/database.py:175-219) for a statement
whose driver-level execution succeeded with cursor state `cur`.  The `Bool`
paired with the outcome records whether the oversize warning
(`查询结果超过限制`, src/database.py:205) was emitted.  A validation failure
raises `ValueError` (src/database.py:180), modelled as `Except.error` with the
raised message. -/
def execute_query {α : Type} (sql : String) (security_mode : SecurityMode)
    (max_result_rows : Nat) (cur : CursorResult α) :
    Except String (ExecOutcome α × Bool) :=
  if !(validate_sql sql security_mode) then
    .error ("SQL操作被安全策略禁止: " ++ get_error_message sql security_mode)
  else if startsWithQueryKeyword (normalizeSql sql) then
    let columns := match cur.description with | some cs => cs | none => []
    let result_dicts := cur.rows.map (fun row => columns.zip row)
    if result_dicts.length > max_result_rows then
      .ok (.resultRows (result_dicts.take max_result_rows), true)
    else
      .ok (.resultRows result_dicts, false)
  else
    .ok (.writeSummary cur.rowcount, false)

/-! ## Schema access resolver (`DamengDatabase._is_schema_allowed`,
src/database.py:252-273) -/

/-- Modelled from the spec: the strategy selectors
(`config.is_all_schemas_allowed()`, `config.is_auto_discover_schemas()`, and
the explicit `config.allowed_schemas` collection) live in `config.py`, which
is not among the sources; the spec (§3, §4.3) fixes the three strategies
AllSchemas, AutoDiscover and Explicit(set), dispatched in that order by
`_is_schema_allowed`. -/
inductive SchemaVisibility
  | allSchemas
  | autoDiscover
  | explicitList (allowed : List String)

/-- The `test_sql` probe text of the AutoDiscover branch
(src/database.py:262-266), literal including its triple-quoted-string
indentation. -/
def AUTO_DISCOVER_PROBE_SQL : String :=
  "\n                SELECT USERNAME \n                FROM ALL_USERS \n                WHERE USERNAME = ?\n                "

/-- `DamengDatabase._is_schema_allowed` (src/database.py:252-273).  The
AutoDiscover probe `execute_safe_query(test_sql, (schema,))` is external I/O;
its outcome for this call is the parameter `probe` — `.ok rows` when the
probe returned `rows`, `.error _` when anything in the `try` block raised.
The source's `except Exception: return False` is the `.error` arm: no failure
propagates to the caller. -/
def _is_schema_allowed {α : Type} (vis : SchemaVisibility) (schema : String)
    (probe : Except Unit (List α)) : Bool :=
  match vis with
  | .allSchemas => true
  | .autoDiscover =>
    match probe with
    | .ok result => decide (result.length > 0)
    | .error _ => false
  | .explicitList allowed => decide (schema ∈ allowed)

/-! ## Spec-side definition used to settle C1

Claim C1 describes the non-SELECT read-only scan as whole-token matching;
the source (src/database.py:87-88) uses plain substring containment.  The
following definition follows the claim's words, for comparison. -/

/-- The secondary scan as claim C1 words it for non-SELECT read-only
keywords: a violation iff some write/dangerous keyword occurs as a whole
whitespace-delimited token of the normalised text. -/
def specWholeTokenViolation (sql_upper : String) : Bool :=
  (WRITE_OPERATIONS ++ DANGEROUS_OPERATIONS).any
    (fun kw => (pySplit sql_upper.data).any (fun w => String.mk w == kw))

/-! ## Shared helper lemmas -/

/-- A statement accepted in read-only mode has its first keyword in
`READONLY_OPERATIONS`. -/
theorem mem_readonly_of_validate (s : String)
    (h : validate_sql s SecurityMode.readonly = true) :
    extract_first_keyword (normalizeSql s) ∈ READONLY_OPERATIONS := by
  by_contra hm
  simp [validate_sql, _validate_readonly, hm] at h

/-! ## Claims -/

/-- C1: the claim reads the non-SELECT read-only scan as whole-token
matching.  On `"SHOW UPDATED"` the leading keyword `SHOW` is read-only and no
write/dangerous keyword occurs as a whole token (the tokens are `SHOW` and
`UPDATED`), so the claim predicts an allow; `validate_sql` denies, because
`_validate_readonly` tests plain substring containment and `UPDATE` is a
substring of `UPDATED`. -/
theorem C1_counterexample :
    extract_first_keyword (normalizeSql "SHOW UPDATED") ∈ READONLY_OPERATIONS ∧
    specWholeTokenViolation (normalizeSql "SHOW UPDATED") = false ∧
    validate_sql "SHOW UPDATED" SecurityMode.readonly = false := by
  refine ⟨by decide, by decide, by decide⟩

/-- C1 (amended): read-only authorization allows exactly when the leading
keyword is in the read-only set and the secondary scan is clean, where the
scan for `SELECT` is the seven word-boundary phrase patterns and the scan for
every other read-only keyword is plain substring containment of any
write/dangerous keyword. -/
theorem C1_readonly_characterization (s : String) :
    validate_sql s SecurityMode.readonly = true ↔
      (extract_first_keyword (normalizeSql s) ∈ READONLY_OPERATIONS ∧
       (extract_first_keyword (normalizeSql s) = "SELECT" →
          dangerousPatternFound (normalizeSql s) = false) ∧
       (extract_first_keyword (normalizeSql s) ≠ "SELECT" →
          forbiddenReadonlySubstringFound (normalizeSql s) = false)) := by
  by_cases h1 : extract_first_keyword (normalizeSql s) ∈ READONLY_OPERATIONS
  · by_cases h2 : extract_first_keyword (normalizeSql s) = "SELECT"
    · simp [validate_sql, _validate_readonly, h1, h2]
    · simp [validate_sql, _validate_readonly, h1, h2]
  · simp [validate_sql, _validate_readonly, h1]

/-- C1 witness: the characterization applied at a concrete accepted input. -/
theorem C1_witness :
    validate_sql "SELECT ID FROM T" SecurityMode.readonly = true :=
  (C1_readonly_characterization "SELECT ID FROM T").mpr (by decide)

/-- C2: monotonicity fails on the code.  `"SELECT DROPOUT FROM T"` is allowed
in read-only mode (no word-boundary phrase pattern matches) but denied in
limited-write mode, whose scan tests plain substring containment of dangerous
keywords and finds `DROP` inside `DROPOUT`. -/
theorem C2_counterexample :
    validate_sql "SELECT DROPOUT FROM T" SecurityMode.readonly = true ∧
    validate_sql "SELECT DROPOUT FROM T" SecurityMode.limited_write = false := by
  refine ⟨by decide, by decide⟩

/-- C2 (amended): a statement allowed in read-only mode is always allowed in
full-access mode, and is allowed in limited-write mode provided no dangerous
keyword occurs as a substring of its normalized text. -/
theorem C2_monotone_amended (s : String)
    (h : validate_sql s SecurityMode.readonly = true)
    (hd : dangerousSubstringFound (normalizeSql s) = false) :
    validate_sql s SecurityMode.limited_write = true ∧
    validate_sql s SecurityMode.full_access = true := by
  refine ⟨?_, rfl⟩
  have hk : extract_first_keyword (normalizeSql s) ∈
      READONLY_OPERATIONS ++ WRITE_OPERATIONS :=
    List.mem_append_left _ (mem_readonly_of_validate s h)
  simp [validate_sql, _validate_limited_write, hk, hd]

/-- C2 witness: the amended monotonicity at a concrete input. -/
theorem C2_witness :
    validate_sql "SELECT ID FROM T WHERE X = 1" SecurityMode.limited_write = true ∧
    validate_sql "SELECT ID FROM T WHERE X = 1" SecurityMode.full_access = true :=
  C2_monotone_amended "SELECT ID FROM T WHERE X = 1" (by decide) (by decide)

/-- C3: the claim's hypothesis is "contains none of the fixed embedded
dangerous patterns" (the seven phrase patterns of §4.1).  `"INSERT GRANTED"`
has leading keyword `INSERT`, matches none of the seven patterns, and is
nevertheless denied in limited-write mode because `GRANT` occurs as a plain
substring of `GRANTED`. -/
theorem C3_counterexample :
    extract_first_keyword (normalizeSql "INSERT GRANTED") = "INSERT" ∧
    dangerousPatternFound (normalizeSql "INSERT GRANTED") = false ∧
    validate_sql "INSERT GRANTED" SecurityMode.limited_write = false := by
  refine ⟨by decide, by decide, by decide⟩

/-- C3 (amended): every statement whose leading keyword is a write keyword
(INSERT or UPDATE) and whose normalized text contains no dangerous keyword as
a substring is allowed in limited-write mode. -/
theorem C3_limited_write_allows_clean_writes (s : String)
    (h1 : extract_first_keyword (normalizeSql s) ∈ WRITE_OPERATIONS)
    (h2 : dangerousSubstringFound (normalizeSql s) = false) :
    validate_sql s SecurityMode.limited_write = true := by
  have hk : extract_first_keyword (normalizeSql s) ∈
      READONLY_OPERATIONS ++ WRITE_OPERATIONS :=
    List.mem_append_right _ h1
  simp [validate_sql, _validate_limited_write, hk, h2]

/-- C3 witness: a concrete clean INSERT is allowed in limited-write mode. -/
theorem C3_witness :
    validate_sql "INSERT INTO T VALUES (1)" SecurityMode.limited_write = true :=
  C3_limited_write_allows_clean_writes "INSERT INTO T VALUES (1)"
    (by decide) (by decide)

/-- C4: full-access mode allows every SQL string, the empty and
whitespace-only strings included; `validate_sql` returns `true` on the
full-access arm without consulting any scan. -/
theorem C4_full_access_allows_all (s : String) :
    validate_sql s SecurityMode.full_access = true := rfl

/-- C5: the denial reason can name a cause other than the one that triggered
the denial.  `"SELECT A FROM T; DROP TABLE T"` is denied in read-only mode by
the embedded `DROP TABLE` pattern scan — its leading keyword `SELECT` is in
the read-only set — yet `get_error_message` produces the
"unsupported operation: SELECT" reason (`只读模式下不支持的操作`). -/
theorem C5_counterexample :
    validate_sql "SELECT A FROM T; DROP TABLE T" SecurityMode.readonly = false ∧
    extract_first_keyword (normalizeSql "SELECT A FROM T; DROP TABLE T") ∈
      READONLY_OPERATIONS ∧
    get_error_message "SELECT A FROM T; DROP TABLE T" SecurityMode.readonly =
      "只读模式下不支持的操作: SELECT" := by
  refine ⟨by decide, by decide, by decide⟩

/-- C5 (amended): in each mode, when a denial is caused by the leading
keyword itself (keyword not in that mode's permitted set), the reason text
names the keyword's true category — in read-only mode, write keywords get the
write-forbidden reason, dangerous keywords the dangerous-operation reason,
and all other keywords the unsupported-operation reason; in limited-write
mode, dangerous keywords get the dangerous-operation reason and all other
keywords the unsupported-operation reason.  (Denials raised by the secondary
text scan instead reuse the keyword-based message, as the counterexample
records.) -/
theorem C5_keyword_denial_reason_agrees (s : String) :
    (extract_first_keyword (normalizeSql s) ∉ READONLY_OPERATIONS →
      validate_sql s SecurityMode.readonly = false ∧
      (extract_first_keyword (normalizeSql s) ∈ WRITE_OPERATIONS →
        get_error_message s SecurityMode.readonly =
          "只读模式下禁止写入操作: " ++ extract_first_keyword (normalizeSql s)) ∧
      (extract_first_keyword (normalizeSql s) ∈ DANGEROUS_OPERATIONS →
        get_error_message s SecurityMode.readonly =
          "只读模式下禁止危险操作: " ++ extract_first_keyword (normalizeSql s)) ∧
      (extract_first_keyword (normalizeSql s) ∉ WRITE_OPERATIONS ∧
       extract_first_keyword (normalizeSql s) ∉ DANGEROUS_OPERATIONS →
        get_error_message s SecurityMode.readonly =
          "只读模式下不支持的操作: " ++ extract_first_keyword (normalizeSql s))) ∧
    (extract_first_keyword (normalizeSql s) ∉
        READONLY_OPERATIONS ++ WRITE_OPERATIONS →
      validate_sql s SecurityMode.limited_write = false ∧
      (extract_first_keyword (normalizeSql s) ∈ DANGEROUS_OPERATIONS →
        get_error_message s SecurityMode.limited_write =
          "限制写入模式下禁止危险操作: " ++ extract_first_keyword (normalizeSql s)) ∧
      (extract_first_keyword (normalizeSql s) ∉ DANGEROUS_OPERATIONS →
        get_error_message s SecurityMode.limited_write =
          "限制写入模式下不支持的操作: " ++ extract_first_keyword (normalizeSql s))) := by
  constructor
  · intro h
    refine ⟨by simp [validate_sql, _validate_readonly, h], ?_, ?_, ?_⟩
    · intro hw
      simp [get_error_message, hw]
    · intro hd
      have hw : extract_first_keyword (normalizeSql s) ∉ WRITE_OPERATIONS := by
        simp only [DANGEROUS_OPERATIONS, List.mem_cons, List.not_mem_nil,
          or_false] at hd
        rcases hd with h' | h' | h' | h' | h' | h' | h' <;>
          simp [WRITE_OPERATIONS, h']
      simp [get_error_message, hw, hd]
    · rintro ⟨hw, hd⟩
      simp [get_error_message, hw, hd]
  · intro h
    refine ⟨by simp [validate_sql, _validate_limited_write, h], ?_, ?_⟩
    · intro hd
      simp [get_error_message, hd]
    · intro hd
      simp [get_error_message, hd]

/-- C5 witness: keyword-caused denial of a dangerous statement receives the
dangerous-operation reason, in read-only mode and in limited-write mode. -/
theorem C5_witness :
    validate_sql "DELETE FROM T" SecurityMode.readonly = false ∧
    get_error_message "DELETE FROM T" SecurityMode.readonly =
      "只读模式下禁止危险操作: DELETE" ∧
    validate_sql "DELETE FROM T" SecurityMode.limited_write = false ∧
    get_error_message "DELETE FROM T" SecurityMode.limited_write =
      "限制写入模式下禁止危险操作: DELETE" := by
  have h := C5_keyword_denial_reason_agrees "DELETE FROM T"
  have h1 := h.1 (by decide)
  have h2 := h.2 (by decide)
  exact ⟨h1.1, h1.2.2.1 (by decide), h2.1, h2.2.1 (by decide)⟩

/-- C6: `ANALYZE` is in `READONLY_OPERATIONS` but not in the executor's
`startswith` tuple, so the permitted statement `"ANALYZE TABLE T"` takes the
write path: the transaction is committed and an affected-rows summary is
returned instead of fetched rows. -/
theorem C6_counterexample :
    validate_sql "ANALYZE TABLE T" SecurityMode.readonly = true ∧
    extract_first_keyword (normalizeSql "ANALYZE TABLE T") = "ANALYZE" ∧
    "ANALYZE" ∈ READONLY_OPERATIONS ∧
    execute_query "ANALYZE TABLE T" SecurityMode.readonly 10
        (CursorResult.mk [[1], [2]] (some ["A"]) 5 : CursorResult Nat) =
      Except.ok (ExecOutcome.writeSummary 5, false) := by
  refine ⟨by decide, by decide, by decide, rfl⟩

/-- C6 (amended): every permitted statement whose normalized text starts
with one of the five prefixes SELECT/WITH/SHOW/DESCRIBE/EXPLAIN (a prefix
match; ANALYZE is not in the tuple) takes the read path of the executor and
yields column-keyed row mappings. -/
theorem C6_read_dispatch {α : Type} (s : String) (m : SecurityMode) (n : Nat)
    (cur : CursorResult α)
    (hv : validate_sql s m = true)
    (hr : startsWithQueryKeyword (normalizeSql s) = true) :
    ∃ rs warn, execute_query s m n cur =
      Except.ok (ExecOutcome.resultRows rs, warn) := by
  simp only [execute_query, hv, hr, Bool.not_true, Bool.false_eq_true,
    if_false, if_true]
  split
  · exact ⟨_, _, rfl⟩
  · exact ⟨_, _, rfl⟩

/-- C6 witness: the read dispatch at a concrete permitted SELECT. -/
theorem C6_witness :
    ∃ rs warn, execute_query "SELECT ID FROM T" SecurityMode.readonly 10
        (CursorResult.mk [[7]] (some ["ID"]) 0 : CursorResult Nat) =
      Except.ok (ExecOutcome.resultRows rs, warn) :=
  C6_read_dispatch "SELECT ID FROM T" SecurityMode.readonly 10
    (CursorResult.mk [[7]] (some ["ID"]) 0) (by decide) (by decide)

/-- C7: on the read path with `max_result_rows = n` and `M` fetched rows, the
executor succeeds (never an error) and returns the column-keyed mappings of
exactly the first `n` rows, in order, with the oversize warning flag, when
`M > n`; and all `M` rows with no warning when `M ≤ n`. -/
theorem C7_row_limit {α : Type} (s : String) (m : SecurityMode) (n : Nat)
    (cur : CursorResult α)
    (hv : validate_sql s m = true)
    (hr : startsWithQueryKeyword (normalizeSql s) = true) :
    execute_query s m n cur =
      Except.ok
        (ExecOutcome.resultRows
          (if cur.rows.length > n then
            (cur.rows.map (fun row =>
              (match cur.description with | some cs => cs | none => []).zip row)).take n
           else
            cur.rows.map (fun row =>
              (match cur.description with | some cs => cs | none => []).zip row)),
         decide (cur.rows.length > n)) := by
  have hmap : (cur.rows.map (fun row =>
      (match cur.description with | some cs => cs | none => []).zip row)).length =
      cur.rows.length := by simp
  simp only [execute_query, hv, hr, Bool.not_true, Bool.false_eq_true,
    if_false, if_true, hmap]
  by_cases hlen : cur.rows.length > n
  · simp [hlen]
  · simp [hlen]

/-- C7 witness: three fetched rows against a limit of two yield the first two
rows and the warning flag. -/
theorem C7_witness :
    execute_query "SELECT ID FROM T" SecurityMode.readonly 2
        (CursorResult.mk [[1], [2], [3]] (some ["ID"]) 0 : CursorResult Nat) =
      Except.ok
        (ExecOutcome.resultRows [[("ID", 1)], [("ID", 2)]], true) := by
  have h := C7_row_limit "SELECT ID FROM T" SecurityMode.readonly 2
    (CursorResult.mk [[1], [2], [3]] (some ["ID"]) 0) (by decide) (by decide)
  rw [h]
  rfl

/-- C8: under AutoDiscover, `_is_schema_allowed` returns true exactly when
the probe returned at least one row, returns false on every probe failure
instead of propagating it, and the probe text itself passes forced read-only
validation. -/
theorem C8_auto_discover_probe {α : Type} (schema : String) (rows : List α)
    (e : Unit) :
    _is_schema_allowed SchemaVisibility.autoDiscover schema (Except.ok rows) =
      decide (rows.length > 0) ∧
    _is_schema_allowed SchemaVisibility.autoDiscover schema
      (Except.error e : Except Unit (List α)) = false ∧
    validate_sql AUTO_DISCOVER_PROBE_SQL SecurityMode.readonly = true :=
  ⟨rfl, rfl, by decide⟩

/-- C9: AllSchemas always allows; Explicit allows exactly the members of the
configured list, compared character-exactly — in particular `"sysdba"` is not
allowed by `Explicit(["SYSDBA"])`. -/
theorem C9_all_and_explicit {α : Type} (schema : String) (l : List String)
    (probe : Except Unit (List α)) :
    _is_schema_allowed SchemaVisibility.allSchemas schema probe = true ∧
    _is_schema_allowed (SchemaVisibility.explicitList l) schema probe =
      decide (schema ∈ l) ∧
    _is_schema_allowed (SchemaVisibility.explicitList ["SYSDBA"]) "sysdba"
      (Except.ok ([] : List Nat)) = false :=
  ⟨rfl, rfl, by decide⟩

/-- C10: both `validate_sql` and `get_error_message` factor through the
`upper().strip()` normalisation, so any two inputs with the same normalised
text — in particular inputs differing only in letter case or in surrounding
whitespace — receive the same verdict and the same message, in every mode. -/
theorem C10_normalization_invariance (s t : String) (m : SecurityMode)
    (h : normalizeSql s = normalizeSql t) :
    validate_sql s m = validate_sql t m ∧
    get_error_message s m = get_error_message t m := by
  constructor
  · simp only [validate_sql, h]
  · simp only [get_error_message, h]

/-- C10 witness: a lower-case, differently padded spelling of the same
statement gets the same verdict and message. -/
theorem C10_witness :
    validate_sql "select * from t" SecurityMode.readonly =
      validate_sql "  SELECT * FROM T  " SecurityMode.readonly ∧
    get_error_message "select * from t" SecurityMode.readonly =
      get_error_message "  SELECT * FROM T  " SecurityMode.readonly :=
  C10_normalization_invariance "select * from t" "  SELECT * FROM T  "
    SecurityMode.readonly (by decide)

end DmMcp
